import Mathlib

/-!
Shallow embedding of `src/index.tsx`: a browser front-end that takes a text
prompt and/or an uploaded base64 image, asks a text-generation endpoint for an
enhanced prompt (`enhancePrompt`), then asks an image-generation endpoint for
images (`generateImages`) and renders them in a gallery (`handleGeneration`).

The DOM surface is modelled as explicit state (`AppState`); the two remote
endpoints are modelled as an oracle environment (`Env`) mapping each request to
either a response or a raised exception (`Except.error ()`).  Each embedded
function additionally returns the `RemoteCall` records it issues, so that
trace properties (which calls were made, with which arguments) are statable.
JavaScript string truthiness (`if (s)`) is modelled by comparison with the
empty string, and nullable strings by `Option String` (`jsTruthy`).
-/

namespace ImageGen

/-- A part of a multi-part request to the text-generation endpoint:
either inline image data with a MIME type, or plain text (`Part` in the source). -/
inductive Part where
  | inlineData (mimeType : String) (data : String)
  | text (s : String)
deriving DecidableEq, Repr

/-- JS truthiness of a nullable string: `null` and `""` are falsy. -/
def jsTruthy : Option String → Bool
  | none => false
  | some s => s != ""

/-- JS `String.prototype.trim()`: the string without leading and trailing
whitespace (as a structural list computation, so that it evaluates by
kernel reduction). -/
def jsTrim (s : String) : String :=
  String.mk (((s.data.dropWhile Char.isWhitespace).reverse.dropWhile
    Char.isWhitespace).reverse)

/-- JS `s.substring(0, n)`: the first `n` characters of `s` (all of `s` when
it is shorter). -/
def substringTo (s : String) (n : Nat) : String :=
  String.mk (s.data.take n)

/-- The `image` field of a generated-image result (`generatedImage.image`),
whose `imageBytes` field may itself be absent. -/
structure ImageField where
  imageBytes : Option String
deriving DecidableEq, Repr

/-- One entry of the image-generation response list (`GeneratedImage`). -/
structure GeneratedImage where
  image : Option ImageField
deriving DecidableEq, Repr

/-- The `config` object of the image-generation request. -/
structure GenConfig where
  numberOfImages : Nat
  aspectRatio : String
  outputMimeType : String
deriving DecidableEq, Repr

/-- A record of one remote call issued during a run: either a
`generateContent` call (model, ordered parts, system instruction) or a
`generateImages` call (model, prompt, config). -/
inductive RemoteCall where
  | enhance (model : String) (parts : List Part) (sysInstruction : String)
  | generate (model : String) (prompt : String) (config : GenConfig)
deriving DecidableEq, Repr

/-- One child of the gallery DOM element: a `<p class="message">` text, or an
`<img>` with its `src` and `alt` attributes. -/
inductive GalleryItem where
  | message (s : String)
  | image (src : String) (alt : String)
deriving DecidableEq, Repr

/-- The mutable front-end state: the prompt textarea value, the uploaded-image
slot, the gallery contents, and the generate button state. -/
structure AppState where
  promptValue : String
  uploadedImageBase64 : Option String
  gallery : List GalleryItem
  btnDisabled : Bool
  btnText : String
deriving DecidableEq, Repr

/-- The remote endpoints, as oracles: the text-generation endpoint maps the
request parts to a response text or an exception; the image-generation
endpoint maps the prompt and config to a response whose `generatedImages`
field may be absent (`none`), or an exception. -/
structure Env where
  enhanceResponse : List Part → Except Unit String
  generateResponse : String → GenConfig → Except Unit (Option (List GeneratedImage))

/-- Result of one `handleGeneration` run: the final state, the remote calls
issued in order, and whether the validation alert was shown. -/
structure RunResult where
  state : AppState
  calls : List RemoteCall
  alerted : Bool
deriving DecidableEq, Repr

-- Literal strings of the source.

def defaultBtnLabel : String := "Generate Images"

def analyzingLabel : String := "Analyzing your idea..."

def generatingLabel : String := "Generating..."

def thinkingMessage : String := "Thinking... Gemini is analyzing your idea."

def analyzedMessage : String := "Idea analyzed! Now generating images..."

def errorMessage : String := "Error: Could not generate images. Check the console for details."

def noImagesMessage : String := "No images were generated. This could be due to the safety policy. Try a different prompt."

def validationAlert : String := "Please enter a prompt or upload an image."

def geminiModel : String := "gemini-2.5-flash"

def imagenModel : String := "imagen-3.0-generate-002"

def sysInstructionText : String := "You are a world-class creative director. Your task is to analyze the user\'s input (which can be text, an image, or both) and create a single, clear, highly detailed, and vivid prompt for an advanced AI image generation model. The prompt should be a descriptive paragraph, focusing on visual details like subject, style, lighting, composition, and color palette. Output only the prompt itself, without any extra conversation or explanation."

/-- `setLoadingState(isLoading, message)` from the source: disables or enables
the button and sets its label (the source's default argument is passed
explicitly as `defaultBtnLabel` at the one call site that omits it). -/
def setLoadingState (s : AppState) (isLoading : Bool) (message : String) : AppState :=
  { s with btnDisabled := isLoading
           btnText := if isLoading then message else defaultBtnLabel }

/-- The `parts` array built by `enhancePrompt`: an inline-image part pushed
first when the image is truthy, then a text part pushed when the text is
truthy (a non-empty string). -/
def buildParts (textPrompt : String) (imageBase64 : Option String) : List Part :=
  let parts : List Part := []
  let parts :=
    if jsTruthy imageBase64 then
      parts ++ [Part.inlineData "image/jpeg" (imageBase64.getD "")]
    else parts
  let parts :=
    if textPrompt != "" then parts ++ [Part.text textPrompt]
    else parts
  parts

/-- `enhancePrompt(textPrompt, imageBase64)`: builds the parts, calls the
text-generation endpoint with the fixed model and system instruction, and
returns the response text (the recorded call paired with the outcome). -/
def enhancePrompt (env : Env) (textPrompt : String) (imageBase64 : Option String) :
    RemoteCall × Except Unit String :=
  let parts := buildParts textPrompt imageBase64
  (RemoteCall.enhance geminiModel parts sysInstructionText, env.enhanceResponse parts)

/-- The fixed config of every image-generation request. -/
def imagenConfig : GenConfig :=
  { numberOfImages := 3, aspectRatio := "1:1", outputMimeType := "image/jpeg" }

/-- The `<img>` element built for a generated image at `index` (0-based in the
source loop): `src` is a JPEG data URL, `alt` combines the first 50 characters
of the prompt with the 1-based index. -/
def imageElement (prompt : String) (index : Nat) (bytes : String) : GalleryItem :=
  GalleryItem.image ("data:image/jpeg;base64," ++ bytes)
    (substringTo prompt 50 ++ "... - Image " ++ toString (index + 1))

/-- The gallery contents produced by `generateImages` once a `generatedImages`
list is present: cleared, then the no-images message if the list is empty,
then one `<img>` per entry with truthy `image?.imageBytes`. -/
def renderGallery (prompt : String) (imgs : List GeneratedImage) : List GalleryItem :=
  (if imgs.length = 0 then [GalleryItem.message noImagesMessage] else []) ++
    imgs.enum.filterMap fun p =>
      match p.2.image with
      | some f =>
          match f.imageBytes with
          | some bytes =>
              if bytes != "" then some (imageElement prompt p.1 bytes) else none
          | none => none
      | none => none

/-- `generateImages(prompt)`: calls the image-generation endpoint with the
fixed model and config; on success, updates the gallery only when the
response has a `generatedImages` list (otherwise it is left untouched).
Returns the recorded call paired with the outcome (the new gallery). -/
def generateImages (env : Env) (prompt : String) (gallery : List GalleryItem) :
    RemoteCall × Except Unit (List GalleryItem) :=
  let call := RemoteCall.generate imagenModel prompt imagenConfig
  match env.generateResponse prompt imagenConfig with
  | Except.error e => (call, Except.error e)
  | Except.ok none => (call, Except.ok gallery)
  | Except.ok (some imgs) => (call, Except.ok (renderGallery prompt imgs))

/-- The validation guard of `handleGeneration`:
`!textPrompt.trim() && !uploadedImageBase64`. -/
def validationFails (s : AppState) : Bool :=
  jsTrim s.promptValue == "" && !(jsTruthy s.uploadedImageBase64)

/-- `handleGeneration()`: validate, set the loading state and thinking
message, call `enhancePrompt`, then `generateImages` with the enhanced
prompt; any exception is caught once and replaced by the generic error
message; the button is re-enabled in the `finally` step. -/
def handleGeneration (env : Env) (s : AppState) : RunResult :=
  let textPrompt := s.promptValue
  if validationFails s then
    { state := s, calls := [], alerted := true }
  else
    let s1 : AppState :=
      { setLoadingState s true analyzingLabel with
        gallery := [GalleryItem.message thinkingMessage] }
    let step1 := enhancePrompt env textPrompt s.uploadedImageBase64
    match step1.2 with
    | Except.error _ =>
        let s2 := { s1 with gallery := [GalleryItem.message errorMessage] }
        { state := setLoadingState s2 false defaultBtnLabel
          calls := [step1.1]
          alerted := false }
    | Except.ok enhanced =>
        let s2 : AppState :=
          { setLoadingState s1 true generatingLabel with
            gallery := [GalleryItem.message analyzedMessage] }
        let step2 := generateImages env enhanced s2.gallery
        match step2.2 with
        | Except.error _ =>
            let s3 := { s2 with gallery := [GalleryItem.message errorMessage] }
            { state := setLoadingState s3 false defaultBtnLabel
              calls := [step1.1, step2.1]
              alerted := false }
        | Except.ok g =>
            { state := setLoadingState { s2 with gallery := g } false defaultBtnLabel
              calls := [step1.1, step2.1]
              alerted := false }

/-- Whether a recorded call is an image-generation call. -/
def RemoteCall.isGenerate : RemoteCall → Bool
  | RemoteCall.generate _ _ _ => true
  | _ => false

/-- Whether a recorded call is a prompt-enhancement call. -/
def RemoteCall.isEnhance : RemoteCall → Bool
  | RemoteCall.enhance _ _ _ => true
  | _ => false

/-- Whether a gallery item is an `<img>` element. -/
def GalleryItem.isImage : GalleryItem → Bool
  | GalleryItem.image _ _ => true
  | _ => false

-- Concrete states and environments used to instantiate the theorems below.

/-- The spec scenario state: prompt `"a cat"`, no uploaded image. -/
def demoState : AppState :=
  { promptValue := "a cat", uploadedImageBase64 := none, gallery := []
    btnDisabled := false, btnText := defaultBtnLabel }

/-- A whitespace-only prompt together with an uploaded image. -/
def wsImageState : AppState :=
  { promptValue := " ", uploadedImageBase64 := some "imgdata", gallery := []
    btnDisabled := false, btnText := defaultBtnLabel }

/-- A whitespace-only prompt and no uploaded image: validation fails. -/
def emptyState : AppState :=
  { promptValue := "   ", uploadedImageBase64 := none, gallery := []
    btnDisabled := false, btnText := defaultBtnLabel }

/-- Three generated images with inline bytes `b1`, `b2`, `b3`. -/
def threeImages : List GeneratedImage :=
  [{ image := some { imageBytes := some "b1" } },
   { image := some { imageBytes := some "b2" } },
   { image := some { imageBytes := some "b3" } }]

/-- Both endpoints succeed: the enhancer returns `"X"`, the image endpoint
returns `threeImages`. -/
def demoEnv : Env :=
  { enhanceResponse := fun _ => Except.ok "X"
    generateResponse := fun _ _ => Except.ok (some threeImages) }

/-- The enhancement endpoint raises. -/
def enhanceFailEnv : Env :=
  { enhanceResponse := fun _ => Except.error ()
    generateResponse := fun _ _ => Except.ok (some threeImages) }

/-- The image endpoint raises after a successful enhancement. -/
def generateFailEnv : Env :=
  { enhanceResponse := fun _ => Except.ok "X"
    generateResponse := fun _ _ => Except.error () }

/-- The image endpoint returns an empty `generatedImages` list. -/
def zeroImagesEnv : Env :=
  { enhanceResponse := fun _ => Except.ok "X"
    generateResponse := fun _ _ => Except.ok (some []) }

/-- The image endpoint responds without a `generatedImages` field. -/
def absentFieldEnv : Env :=
  { enhanceResponse := fun _ => Except.ok "X"
    generateResponse := fun _ _ => Except.ok none }

/-- Case analysis of one `handleGeneration` run: validation abort; enhancement
failure (one call, error gallery); or both calls issued, with the gallery
determined by the image-endpoint outcome. -/
theorem handleGeneration_eq (env : Env) (s : AppState) :
    handleGeneration env s =
      (if validationFails s then { state := s, calls := [], alerted := true }
       else
        match env.enhanceResponse (buildParts s.promptValue s.uploadedImageBase64) with
        | Except.error _ =>
            { state := { s with gallery := [GalleryItem.message errorMessage]
                                btnDisabled := false, btnText := defaultBtnLabel }
              calls := [RemoteCall.enhance geminiModel
                  (buildParts s.promptValue s.uploadedImageBase64) sysInstructionText]
              alerted := false }
        | Except.ok p =>
            { state := { s with
                gallery :=
                  (match env.generateResponse p imagenConfig with
                    | Except.error _ => [GalleryItem.message errorMessage]
                    | Except.ok none => [GalleryItem.message analyzedMessage]
                    | Except.ok (some imgs) => renderGallery p imgs)
                btnDisabled := false, btnText := defaultBtnLabel }
              calls := [RemoteCall.enhance geminiModel
                  (buildParts s.promptValue s.uploadedImageBase64) sysInstructionText,
                RemoteCall.generate imagenModel p imagenConfig]
              alerted := false }) := by
  unfold handleGeneration enhancePrompt generateImages
  cases hv : validationFails s with
  | true => simp [hv]
  | false =>
    cases he : env.enhanceResponse (buildParts s.promptValue s.uploadedImageBase64) with
    | error e => simp [hv, he, setLoadingState]
    | ok p =>
      cases hg : env.generateResponse p imagenConfig with
      | error e => simp [hv, he, hg, setLoadingState]
      | ok r => cases r <;> simp [hv, he, hg, setLoadingState]

/-- A text part is in the built parts exactly for the raw, non-empty prompt. -/
theorem text_part_mem_buildParts (t : String) (img : Option String) (u : String) :
    Part.text u ∈ buildParts t img ↔ (u = t ∧ t ≠ "") := by
  cases img with
  | none => by_cases ht : t = "" <;> simp [buildParts, jsTruthy, ht]
  | some b =>
      by_cases hb : b = "" <;> by_cases ht : t = "" <;>
        simp [buildParts, jsTruthy, hb, ht]

/-- C1: whenever a run issues an image-generation call with prompt `p`, the
enhancement endpoint returned exactly `Except.ok p` for this run's request
parts — the image client receives the enhanced string, and can receive the
raw user prompt only if the enhancer returned it verbatim. -/
theorem C1_generate_called_only_with_enhanced (env : Env) (s : AppState)
    (m p : String) (cfg : GenConfig)
    (h : RemoteCall.generate m p cfg ∈ (handleGeneration env s).calls) :
    env.enhanceResponse (buildParts s.promptValue s.uploadedImageBase64) = Except.ok p ∧
      (env.enhanceResponse (buildParts s.promptValue s.uploadedImageBase64) ≠
        Except.ok s.promptValue → p ≠ s.promptValue) := by
  rw [handleGeneration_eq] at h
  by_cases hv : validationFails s = true
  · simp [hv] at h
  · simp only [Bool.not_eq_true] at hv
    cases he : env.enhanceResponse (buildParts s.promptValue s.uploadedImageBase64) with
    | error e => simp [hv, he] at h
    | ok q =>
      simp [hv, he] at h
      obtain ⟨hm, hp, hcfg⟩ := h
      subst hp
      refine ⟨rfl, ?_⟩
      intro hne hpe
      exact hne (by rw [hpe])

/-- Witness for C1: in the scenario run both calls succeed and the image call
carries the enhanced string `"X"`. -/
theorem C1_witness :
    demoEnv.enhanceResponse
        (buildParts demoState.promptValue demoState.uploadedImageBase64) =
      Except.ok "X" :=
  (C1_generate_called_only_with_enhanced demoEnv demoState imagenModel "X"
    imagenConfig (by decide)).1

/-- C2: with a prompt that trims to empty and no stored image, the run makes
no remote call, shows the validation alert, and leaves the state unchanged. -/
theorem C2_validation_abort (env : Env) (s : AppState)
    (h1 : jsTrim s.promptValue = "") (h2 : s.uploadedImageBase64 = none) :
    handleGeneration env s = { state := s, calls := [], alerted := true } := by
  have hv : validationFails s = true := by
    simp [validationFails, h1, h2, jsTruthy]
  unfold handleGeneration
  simp [hv]

/-- Witness for C2: a whitespace-only prompt with no image aborts with the
alert and an empty call trace. -/
theorem C2_witness :
    handleGeneration demoEnv emptyState =
      { state := emptyState, calls := [], alerted := true } :=
  C2_validation_abort demoEnv emptyState (by decide) (by decide)

/-- C3: in every non-aborted run the trigger button ends re-enabled with its
default label, and if either remote call raised, the gallery ends holding
exactly the one generic error message. -/
theorem C3_error_single_message_and_reenabled (env : Env) (s : AppState)
    (hv : validationFails s = false) :
    (handleGeneration env s).state.btnDisabled = false ∧
    (handleGeneration env s).state.btnText = defaultBtnLabel ∧
    ((env.enhanceResponse (buildParts s.promptValue s.uploadedImageBase64) =
        Except.error () ∨
      (∃ p, env.enhanceResponse (buildParts s.promptValue s.uploadedImageBase64) =
          Except.ok p ∧ env.generateResponse p imagenConfig = Except.error ())) →
      (handleGeneration env s).state.gallery = [GalleryItem.message errorMessage]) := by
  rw [handleGeneration_eq]
  cases he : env.enhanceResponse (buildParts s.promptValue s.uploadedImageBase64) with
  | error e => simp [hv, he]
  | ok p =>
    refine ⟨by simp [hv, he], by simp [hv, he], ?_⟩
    rintro (habs | ⟨q, hq, hgq⟩)
    · exact Except.noConfusion habs
    · simp only [Except.ok.injEq] at hq
      subst hq
      simp [hv, hgq]

/-- Witness for C3: when the enhancement call raises, the button is
re-enabled and the gallery holds exactly the generic error message. -/
theorem C3_witness :
    (handleGeneration enhanceFailEnv demoState).state.btnDisabled = false ∧
    (handleGeneration enhanceFailEnv demoState).state.gallery =
      [GalleryItem.message errorMessage] :=
  ⟨(C3_error_single_message_and_reenabled enhanceFailEnv demoState (by decide)).1,
   (C3_error_single_message_and_reenabled enhanceFailEnv demoState (by decide)).2.2
     (Or.inl rfl)⟩

/-- C4: a successful image call returning an empty `generatedImages` list
leaves the gallery holding exactly the no-images message, zero `<img>`
elements, and not the error message. -/
theorem C4_zero_images_message (env : Env) (s : AppState) (p : String)
    (hv : validationFails s = false)
    (he : env.enhanceResponse (buildParts s.promptValue s.uploadedImageBase64) =
      Except.ok p)
    (hg : env.generateResponse p imagenConfig = Except.ok (some [])) :
    (handleGeneration env s).state.gallery = [GalleryItem.message noImagesMessage] ∧
    (handleGeneration env s).state.gallery.countP
      (fun it => GalleryItem.isImage it) = 0 ∧
    GalleryItem.message errorMessage ∉ (handleGeneration env s).state.gallery := by
  rw [handleGeneration_eq]
  refine ⟨by simp [hv, he, hg, renderGallery], ?_, ?_⟩
  · simp [hv, he, hg, renderGallery, GalleryItem.isImage]
  · simp only [hv, Bool.false_eq_true, if_false, he, hg]
    simp [renderGallery, noImagesMessage, errorMessage]

/-- Witness for C4: the zero-images environment ends with exactly the
no-images message. -/
theorem C4_witness :
    (handleGeneration zeroImagesEnv demoState).state.gallery =
      [GalleryItem.message noImagesMessage] :=
  (C4_zero_images_message zeroImagesEnv demoState "X" (by decide) rfl rfl).1

/-- C5: each endpoint is called at most once per run, and when the
enhancement call raises, no image-generation call is ever issued. -/
theorem C5_single_attempt (env : Env) (s : AppState) :
    (handleGeneration env s).calls.countP (fun c => RemoteCall.isEnhance c) ≤ 1 ∧
    (handleGeneration env s).calls.countP (fun c => RemoteCall.isGenerate c) ≤ 1 ∧
    (env.enhanceResponse (buildParts s.promptValue s.uploadedImageBase64) =
        Except.error () →
      (handleGeneration env s).calls.countP (fun c => RemoteCall.isGenerate c) = 0) := by
  rw [handleGeneration_eq]
  by_cases hv : validationFails s = true
  · simp [hv]
  · simp only [Bool.not_eq_true] at hv
    cases he : env.enhanceResponse (buildParts s.promptValue s.uploadedImageBase64) with
    | error e =>
        simp [hv, he, RemoteCall.isEnhance, RemoteCall.isGenerate]
    | ok p =>
        refine ⟨?_, ?_, ?_⟩
        · simp [hv, he, RemoteCall.isEnhance, RemoteCall.isGenerate]
        · simp [hv, he, RemoteCall.isEnhance, RemoteCall.isGenerate]
        · intro habs
          exact Except.noConfusion habs

/-- Witness for C5: with a raising enhancement endpoint, the run issues no
image-generation call. -/
theorem C5_witness :
    (handleGeneration enhanceFailEnv demoState).calls.countP
      (fun c => RemoteCall.isGenerate c) = 0 :=
  (C5_single_attempt enhanceFailEnv demoState).2.2 rfl

/-- C6: with a truthy image the parts are the `image/jpeg` inline part first,
then the text part exactly when the text is non-empty; with no image the
parts are text-only. -/
theorem C6_parts_order (t b : String) (hb : b ≠ "") :
    buildParts t (some b) =
      Part.inlineData "image/jpeg" b :: (if t = "" then [] else [Part.text t]) ∧
    buildParts t none = (if t = "" then [] else [Part.text t]) := by
  constructor <;> by_cases ht : t = "" <;> simp [buildParts, jsTruthy, hb, ht]

/-- Witness for C6: a concrete prompt and image yield the ordered parts. -/
theorem C6_witness :
    buildParts "hello" (some "img") =
      Part.inlineData "image/jpeg" "img" ::
        (if "hello" = "" then [] else [Part.text "hello"]) ∧
    buildParts "hello" none = (if "hello" = "" then [] else [Part.text "hello"]) :=
  C6_parts_order "hello" "img" (by decide)

/-- C7: every image-generation call a run issues uses the fixed model and the
fixed config: 3 images, aspect ratio 1:1, JPEG output. -/
theorem C7_generate_config (env : Env) (s : AppState) (m p : String) (cfg : GenConfig)
    (h : RemoteCall.generate m p cfg ∈ (handleGeneration env s).calls) :
    m = imagenModel ∧ cfg.numberOfImages = 3 ∧ cfg.aspectRatio = "1:1" ∧
      cfg.outputMimeType = "image/jpeg" := by
  rw [handleGeneration_eq] at h
  by_cases hv : validationFails s = true
  · simp [hv] at h
  · simp only [Bool.not_eq_true] at hv
    cases he : env.enhanceResponse (buildParts s.promptValue s.uploadedImageBase64) with
    | error e => simp [hv, he] at h
    | ok q =>
      simp [hv, he] at h
      obtain ⟨hm, hp, hcfg⟩ := h
      subst hcfg
      exact ⟨hm, rfl, rfl, rfl⟩

/-- Witness for C7: the scenario run's image call carries the fixed config. -/
theorem C7_witness :
    imagenModel = imagenModel ∧ imagenConfig.numberOfImages = 3 ∧
      imagenConfig.aspectRatio = "1:1" ∧ imagenConfig.outputMimeType = "image/jpeg" :=
  C7_generate_config demoEnv demoState imagenModel "X" imagenConfig (by decide)

/-- C8 as stated is false: in the scenario (prompt `"a cat"`, no image,
enhanced prompt `"X"`, three images) the rendered alt texts are not derived
from the user's prompt text. -/
theorem C8_counterexample :
    (handleGeneration demoEnv demoState).state.gallery ≠
      [GalleryItem.image "data:image/jpeg;base64,b1" "a cat... - Image 1",
       GalleryItem.image "data:image/jpeg;base64,b2" "a cat... - Image 2",
       GalleryItem.image "data:image/jpeg;base64,b3" "a cat... - Image 3"] := by
  decide

/-- C8 (amended): in that scenario the alt texts are derived from the
enhanced prompt `"X"` — truncated to 50 characters, with a 1-based index. -/
theorem C8_alt_text_from_enhanced_prompt :
    (handleGeneration demoEnv demoState).state.gallery =
      [GalleryItem.image "data:image/jpeg;base64,b1"
         (substringTo "X" 50 ++ "... - Image 1"),
       GalleryItem.image "data:image/jpeg;base64,b2"
         (substringTo "X" 50 ++ "... - Image 2"),
       GalleryItem.image "data:image/jpeg;base64,b3"
         (substringTo "X" 50 ++ "... - Image 3")] := by
  decide

/-- C9: a successful image response without a `generatedImages` list leaves
the gallery exactly as it was — the generating status message — with no
`<img>` elements and no no-images message. -/
theorem C9_absent_field_keeps_gallery (env : Env) (s : AppState) (p : String)
    (hv : validationFails s = false)
    (he : env.enhanceResponse (buildParts s.promptValue s.uploadedImageBase64) =
      Except.ok p)
    (hg : env.generateResponse p imagenConfig = Except.ok none) :
    (handleGeneration env s).state.gallery = [GalleryItem.message analyzedMessage] ∧
    (handleGeneration env s).state.gallery.countP
      (fun it => GalleryItem.isImage it) = 0 ∧
    GalleryItem.message noImagesMessage ∉ (handleGeneration env s).state.gallery := by
  rw [handleGeneration_eq]
  refine ⟨by simp [hv, he, hg], ?_, ?_⟩
  · simp [hv, he, hg, GalleryItem.isImage]
  · simp only [hv, Bool.false_eq_true, if_false, he, hg]
    simp [analyzedMessage, noImagesMessage]

/-- Witness for C9: the absent-field environment ends with the generating
status message still in the gallery. -/
theorem C9_witness :
    (handleGeneration absentFieldEnv demoState).state.gallery =
      [GalleryItem.message analyzedMessage] :=
  (C9_absent_field_keeps_gallery absentFieldEnv demoState "X" (by decide) rfl rfl).1

/-- C10: the text part of any enhancement call a run issues contains the raw,
untrimmed prompt value, and is present exactly when that value is non-empty. -/
theorem C10_text_part_raw_iff_nonempty (env : Env) (s : AppState)
    (m : String) (parts : List Part) (instr : String) (u : String)
    (h : RemoteCall.enhance m parts instr ∈ (handleGeneration env s).calls) :
    (Part.text u ∈ parts ↔ (u = s.promptValue ∧ s.promptValue ≠ "")) := by
  have hp : parts = buildParts s.promptValue s.uploadedImageBase64 := by
    rw [handleGeneration_eq] at h
    by_cases hv : validationFails s = true
    · simp [hv] at h
    · simp only [Bool.not_eq_true] at hv
      cases he : env.enhanceResponse (buildParts s.promptValue s.uploadedImageBase64) with
      | error e =>
          simp [hv, he] at h
          exact h.2.1
      | ok q =>
          simp [hv, he] at h
          exact h.2.1
  rw [hp]
  exact text_part_mem_buildParts s.promptValue s.uploadedImageBase64 u

set_option maxRecDepth 8192 in
/-- Witness for C10: a whitespace-only prompt with an uploaded image still
produces a text part holding exactly that whitespace. -/
theorem C10_witness :
    Part.text " " ∈
      buildParts wsImageState.promptValue wsImageState.uploadedImageBase64 :=
  (C10_text_part_raw_iff_nonempty demoEnv wsImageState geminiModel
      (buildParts wsImageState.promptValue wsImageState.uploadedImageBase64)
      sysInstructionText " " (by decide)).mpr ⟨rfl, by decide⟩

end ImageGen
